import Mathlib

/-!
Verification of the HKDS repository's utility and Keccak-layer claims.

The queue (queue.c) and thread-pool sources are embedded directly; byte
arrays become `List Nat` (each entry a byte value), machine-size counters
become `Nat`, and the 64-bit Keccak lanes become `Nat` reduced mod 2^64.
-/

/- ===================== Queue (queue.c) ===================== -/

/-- Modelled from the spec: queue.h is not under src; the self-test and the
spec's round-trip example both use a depth of 64 items, and the tags member
is a fixed-size array cleared in full by initialize/flush/destroy. -/
def QSC_QUEUE_MAX_DEPTH : Nat := 64

/-- The qsc_queue_state structure: `queue` is the array of `depth` slots of
`width` bytes each, `tags` the fixed tag array, with the item count and the
next insertion position. -/
structure qsc_queue_state where
  queue : List (List Nat)
  tags : List Nat
  count : Nat
  depth : Nat
  position : Nat
  width : Nat
deriving Repr, DecidableEq

/-- qsc_queue_initialized: allocates `depth` zeroed slots of `width` bytes,
zeroes the tag array and both counters (success path of the allocation). -/
def qsc_queue_initialized (depth width : Nat) : qsc_queue_state :=
  { queue := List.replicate depth (List.replicate width 0)
    tags := List.replicate QSC_QUEUE_MAX_DEPTH 0
    count := 0
    depth := depth
    position := 0
    width := width }

/-- qsc_queue_items: the stored item count. -/
def qsc_queue_items (ctx : qsc_queue_state) : Nat :=
  ctx.count

/-- qsc_queue_isfull: count equals depth. -/
def qsc_queue_isfull (ctx : qsc_queue_state) : Bool :=
  ctx.count == ctx.depth

/-- qsc_queue_isempty: count equals zero. -/
def qsc_queue_isempty (ctx : qsc_queue_state) : Bool :=
  ctx.count == 0

/-- qsc_queue_push: when the queue is not full and `inlen` fits the slot
width, copies `inlen` bytes of the input into slot `position`, records the
tag at `position`, and increments position and count; otherwise no-op. -/
def qsc_queue_push (ctx : qsc_queue_state) (input : List Nat) (inlen : Nat)
    (tag : Nat) : qsc_queue_state :=
  if qsc_queue_isfull ctx = false ∧ inlen ≤ ctx.width then
    { ctx with
      queue := ctx.queue.set ctx.position
        (input.take inlen ++ (ctx.queue.getD ctx.position []).drop inlen)
      tags := ctx.tags.set ctx.position tag
      position := ctx.position + 1
      count := ctx.count + 1 }
  else ctx

/-- qsc_queue_pop: returns the tag value, the bytes written to the output
(`none` when the guard fails and nothing is written), and the new state.
Mirrors queue.c line by line: copy `outlen` bytes from slot 0, clear slot 0,
read `tags[position - 1]`, shift slots and tags `[1, count)` down one, clear
slot and tag `position - 1`, decrement count and position. -/
def qsc_queue_pop (ctx : qsc_queue_state) (outlen : Nat) :
    Nat × Option (List Nat) × qsc_queue_state :=
  if qsc_queue_isempty ctx = false ∧ outlen ≤ ctx.width then
    let out := (ctx.queue.getD 0 []).take outlen
    let q1 := ctx.queue.set 0 (List.replicate ctx.width 0)
    let tag := ctx.tags.getD (ctx.position - 1) 0
    let q2 := List.ofFn (n := q1.length) fun j =>
      if j.val + 1 < ctx.count then q1.getD (j.val + 1) [] else q1.getD j.val []
    let t2 := List.ofFn (n := ctx.tags.length) fun j =>
      if j.val + 1 < ctx.count then ctx.tags.getD (j.val + 1) 0
      else ctx.tags.getD j.val 0
    let q3 := q2.set (ctx.position - 1) (List.replicate ctx.width 0)
    let t3 := t2.set (ctx.position - 1) 0
    (tag, some out,
      { ctx with
        queue := q3
        tags := t3
        count := ctx.count - 1
        position := ctx.position - 1 })
  else (0, none, ctx)

/-- qsc_queue_flush: copies the first `position` slots (width bytes each)
into a contiguous output, clears those slots, zeroes the tag array and both
counters. Returns the drained output and the new state. -/
def qsc_queue_flush (ctx : qsc_queue_state) : List Nat × qsc_queue_state :=
  ((ctx.queue.take ctx.position).flatten,
    { ctx with
      queue := List.ofFn (n := ctx.queue.length) fun j =>
        if j.val < ctx.position then List.replicate ctx.width 0
        else ctx.queue.getD j.val []
      tags := List.replicate ctx.tags.length 0
      count := 0
      position := 0 })

/-- qsc_queue_destroy: clears and frees every slot and the slot array,
zeroes the tag array, and zeroes all four scalar fields. -/
def qsc_queue_destroy (ctx : qsc_queue_state) : qsc_queue_state :=
  { queue := []
    tags := List.replicate ctx.tags.length 0
    count := 0
    depth := 0
    position := 0
    width := 0 }

/- ===================== Thread pool ===================== -/

/-- The declared capacity of the task-handle registry. -/
def QSC_THREADPOOL_THREADS_MAX : Nat := 1024

/-- The qsc_threadpool_state structure: the handle array (declared with
exactly `QSC_THREADPOOL_THREADS_MAX` entries) and the handle count. -/
structure qsc_threadpool_state where
  tpool : List Nat
  tcount : Nat
deriving Repr, DecidableEq

/-- qsc_threadpool_add_task: `handle` stands for the handle produced by the
platform thread-start call. Returns the boolean result, the new state, and
the index the handle was stored at (`none` when nothing was stored). The
guard is the source's `tcount <= QSC_THREADPOOL_THREADS_MAX`. -/
def qsc_threadpool_add_task (ctx : qsc_threadpool_state) (handle : Nat) :
    Bool × qsc_threadpool_state × Option Nat :=
  if ctx.tcount ≤ QSC_THREADPOOL_THREADS_MAX then
    (true,
      { tpool := ctx.tpool.set ctx.tcount handle, tcount := ctx.tcount + 1 },
      some ctx.tcount)
  else (false, ctx, none)

/- ===================== Keccak constants (sha3.h) ===================== -/

/-- The cSHAKE domain id (sha3.h). -/
def QSC_KECCAK_CSHAKE_DOMAIN_ID : Nat := 0x04

/-- The KMAC domain id (sha3.h). -/
def QSC_KECCAK_KMAC_DOMAIN_ID : Nat := 0x04

/-- The KPA domain id (sha3.h). -/
def QSC_KECCAK_KPA_DOMAIN_ID : Nat := 0x41

/-- The SHA3 domain id (sha3.h). -/
def QSC_KECCAK_SHA3_DOMAIN_ID : Nat := 0x06

/-- The SHAKE domain id (sha3.h). -/
def QSC_KECCAK_SHAKE_DOMAIN_ID : Nat := 0x1F

/-- The standard number of permutation rounds (sha3.h). -/
def QSC_KECCAK_PERMUTATION_ROUNDS : Nat := 24

/-- The maximum number of permutation rounds (sha3.h). -/
def QSC_KECCAK_PERMUTATION_MAX_ROUNDS : Nat := 48

/-- The minimum number of permutation rounds (sha3.h). -/
def QSC_KECCAK_PERMUTATION_MIN_ROUNDS : Nat := 12

/-- The Keccak state array byte size (sha3.h). -/
def QSC_KECCAK_STATE_BYTE_SIZE : Nat := 200

/-- The 128-bit-security byte absorption rate (sha3.h). -/
def QSC_KECCAK_128_RATE : Nat := 168

/-- The 256-bit-security byte absorption rate (sha3.h). -/
def QSC_KECCAK_256_RATE : Nat := 136

/-- The 512-bit-security byte absorption rate (sha3.h). -/
def QSC_KECCAK_512_RATE : Nat := 72

/-- The Keccak uint64 state array size (sha3.h). -/
def QSC_KECCAK_STATE_SIZE : Nat := 25

/-- The qsc_keccak_rate enumeration: the three supported security levels. -/
inductive qsc_keccak_rate where
  | rate_128
  | rate_256
  | rate_512
deriving DecidableEq, Repr

/-- The byte value of each qsc_keccak_rate enumerator (sha3.h lines 248-253). -/
def qsc_keccak_rate.val : qsc_keccak_rate → Nat
  | .rate_128 => QSC_KECCAK_128_RATE
  | .rate_256 => QSC_KECCAK_256_RATE
  | .rate_512 => QSC_KECCAK_512_RATE

/- ===================== Theorems: C1, C2, C3, C4, C8, C9, C10 ===================== -/

/-- C1: pushing items with tags 10 then 20 into a fresh queue and popping
once yields the oldest item (FIFO holds for the data), but the returned tag
is 20 — the tag of the newest item, read from tags[position - 1] — not the
tag 10 that was pushed with the popped item, refuting the matching-tags part
of the claim at this input. -/
theorem qsc_queue_pop_returns_newest_tag :
    (qsc_queue_pop (qsc_queue_push (qsc_queue_push (qsc_queue_initialized 2 1)
        [1] 1 10) [2] 1 20) 1).2.1 = some [1]
  ∧ (qsc_queue_pop (qsc_queue_push (qsc_queue_push (qsc_queue_initialized 2 1)
        [1] 1 10) [2] 1 20) 1).1 = 20
  ∧ (20 : Nat) ≠ 10 := by decide

/-- C2: with the registry already holding 1024 handles (tcount = 1024, the
declared capacity), add_task still returns true, stores the new handle at
index 1024 — one past the end of the 1024-entry handle array — and bumps
tcount to 1025, refuting the bounded-registry claim at this input. -/
theorem qsc_threadpool_add_task_at_capacity :
    (qsc_threadpool_add_task
        { tpool := List.replicate 1024 0, tcount := 1024 } 7).1 = true
  ∧ (qsc_threadpool_add_task
        { tpool := List.replicate 1024 0, tcount := 1024 } 7).2.2 = some 1024
  ∧ ¬ 1024 < QSC_THREADPOOL_THREADS_MAX
  ∧ (qsc_threadpool_add_task
        { tpool := List.replicate 1024 0, tcount := 1024 } 7).2.1.tcount = 1025 := by
  decide

/-- C3: the domain-separation constants are exactly SHA3 = 0x06,
SHAKE = 0x1F, cSHAKE = 0x04, KMAC = 0x04 (cSHAKE and KMAC share 0x04),
and KPA = 0x41. -/
theorem keccak_domain_ids_exact :
    QSC_KECCAK_SHA3_DOMAIN_ID = 0x06
  ∧ QSC_KECCAK_SHAKE_DOMAIN_ID = 0x1F
  ∧ QSC_KECCAK_CSHAKE_DOMAIN_ID = 0x04
  ∧ QSC_KECCAK_KMAC_DOMAIN_ID = 0x04
  ∧ QSC_KECCAK_CSHAKE_DOMAIN_ID = QSC_KECCAK_KMAC_DOMAIN_ID
  ∧ QSC_KECCAK_KPA_DOMAIN_ID = 0x41 := by decide

/-- C4: the state is a fixed 200 bytes, the three supported rates are
exactly 168, 136, and 72 bytes for the 128-, 256-, and 512-bit levels,
and for every supported rate r, r plus the remaining capacity 200 - r
equals the 200-byte state size. -/
theorem keccak_rates_sum_to_state_size :
    QSC_KECCAK_STATE_BYTE_SIZE = 200
  ∧ qsc_keccak_rate.rate_128.val = 168
  ∧ qsc_keccak_rate.rate_256.val = 136
  ∧ qsc_keccak_rate.rate_512.val = 72
  ∧ ∀ r : qsc_keccak_rate,
      r.val + (QSC_KECCAK_STATE_BYTE_SIZE - r.val) = QSC_KECCAK_STATE_BYTE_SIZE := by
  refine ⟨rfl, rfl, rfl, rfl, fun r => ?_⟩
  cases r <;> decide

/-- C8: push is a silently ignored no-op when the queue is full or the
input length exceeds the slot width (the state is returned unchanged), and
otherwise copies the input into slot `position`, records the tag there, and
increments both count and position by exactly one, leaving depth and width
unchanged. -/
theorem qsc_queue_push_contract (ctx : qsc_queue_state) (input : List Nat)
    (inlen tag : Nat) :
    (qsc_queue_isfull ctx = true ∨ ctx.width < inlen →
      qsc_queue_push ctx input inlen tag = ctx)
  ∧ (qsc_queue_isfull ctx = false → inlen ≤ ctx.width →
      (qsc_queue_push ctx input inlen tag).count = ctx.count + 1
    ∧ (qsc_queue_push ctx input inlen tag).position = ctx.position + 1
    ∧ (qsc_queue_push ctx input inlen tag).tags = ctx.tags.set ctx.position tag
    ∧ (qsc_queue_push ctx input inlen tag).queue =
        ctx.queue.set ctx.position
          (input.take inlen ++ (ctx.queue.getD ctx.position []).drop inlen)
    ∧ (qsc_queue_push ctx input inlen tag).depth = ctx.depth
    ∧ (qsc_queue_push ctx input inlen tag).width = ctx.width) := by
  constructor
  · intro h
    have hc : ¬(qsc_queue_isfull ctx = false ∧ inlen ≤ ctx.width) := by
      rintro ⟨h1, h2⟩
      rcases h with h | h
      · rw [h] at h1; exact Bool.noConfusion h1
      · omega
    simp [qsc_queue_push, hc]
  · intro h1 h2
    simp [qsc_queue_push, h1, h2]

/-- C8 witness: a fresh depth-2 queue is not full and a 1-byte input fits
its 1-byte slots; pushing there increments count and position by one. -/
theorem qsc_queue_push_contract_witness :
    (qsc_queue_isfull (qsc_queue_initialized 2 1) = false
      ∧ 1 ≤ (qsc_queue_initialized 2 1).width)
  ∧ (qsc_queue_push (qsc_queue_initialized 2 1) [9] 1 7).count
      = (qsc_queue_initialized 2 1).count + 1
  ∧ (qsc_queue_push (qsc_queue_initialized 2 1) [9] 1 7).position
      = (qsc_queue_initialized 2 1).position + 1 :=
  ⟨⟨by decide, by decide⟩,
   ((qsc_queue_push_contract (qsc_queue_initialized 2 1) [9] 1 7).2
      (by decide) (by decide)).1,
   ((qsc_queue_push_contract (qsc_queue_initialized 2 1) [9] 1 7).2
      (by decide) (by decide)).2.1⟩

/-- The queue states reachable from initialize by any sequence of push,
pop, flush, and destroy operations. -/
inductive qsc_queue_reachable : qsc_queue_state → Prop
  | initialized (depth width : Nat) :
      qsc_queue_reachable (qsc_queue_initialized depth width)
  | push (ctx : qsc_queue_state) (input : List Nat) (inlen tag : Nat) :
      qsc_queue_reachable ctx →
      qsc_queue_reachable (qsc_queue_push ctx input inlen tag)
  | pop (ctx : qsc_queue_state) (outlen : Nat) :
      qsc_queue_reachable ctx →
      qsc_queue_reachable (qsc_queue_pop ctx outlen).2.2
  | flush (ctx : qsc_queue_state) :
      qsc_queue_reachable ctx →
      qsc_queue_reachable (qsc_queue_flush ctx).2
  | destroy (ctx : qsc_queue_state) :
      qsc_queue_reachable ctx →
      qsc_queue_reachable (qsc_queue_destroy ctx)

/-- C9: in every queue state reachable from initialize by any sequence of
push, pop, flush, and destroy operations, the stored-item count equals the
buffer insertion position. -/
theorem qsc_queue_count_eq_position (s : qsc_queue_state)
    (h : qsc_queue_reachable s) : s.count = s.position := by
  induction h with
  | initialized depth width => rfl
  | push ctx input inlen tag _ ih =>
      unfold qsc_queue_push
      split
      · show ctx.count + 1 = ctx.position + 1
        omega
      · exact ih
  | pop ctx outlen _ ih =>
      unfold qsc_queue_pop
      split
      · show ctx.count - 1 = ctx.position - 1
        omega
      · exact ih
  | flush ctx _ _ => rfl
  | destroy ctx _ _ => rfl

/-- C9 witness: the state reached by one push after initialize is
reachable, and its count equals its position. -/
theorem qsc_queue_count_eq_position_witness :
    qsc_queue_reachable (qsc_queue_push (qsc_queue_initialized 2 1) [1] 1 3)
  ∧ (qsc_queue_push (qsc_queue_initialized 2 1) [1] 1 3).count
      = (qsc_queue_push (qsc_queue_initialized 2 1) [1] 1 3).position :=
  ⟨qsc_queue_reachable.push _ [1] 1 3 (qsc_queue_reachable.initialized 2 1),
   qsc_queue_count_eq_position _
     (qsc_queue_reachable.push _ [1] 1 3 (qsc_queue_reachable.initialized 2 1))⟩

/-- C10: when the queue is empty or the requested output length exceeds the
slot width, pop returns tag 0, writes nothing to the output, and leaves the
entire queue state unchanged. -/
theorem qsc_queue_pop_rejected (ctx : qsc_queue_state) (outlen : Nat)
    (h : qsc_queue_isempty ctx = true ∨ ctx.width < outlen) :
    qsc_queue_pop ctx outlen = (0, none, ctx) := by
  have hc : ¬(qsc_queue_isempty ctx = false ∧ outlen ≤ ctx.width) := by
    rintro ⟨h1, h2⟩
    rcases h with h | h
    · rw [h] at h1; exact Bool.noConfusion h1
    · omega
  simp [qsc_queue_pop, hc]

/-- C10 witness: a fresh queue is empty, and pop on it returns tag 0, no
output bytes, and the unchanged state. -/
theorem qsc_queue_pop_rejected_witness :
    qsc_queue_isempty (qsc_queue_initialized 2 1) = true
  ∧ qsc_queue_pop (qsc_queue_initialized 2 1) 1
      = (0, none, qsc_queue_initialized 2 1) :=
  ⟨by decide,
   qsc_queue_pop_rejected (qsc_queue_initialized 2 1) 1 (Or.inl (by decide))⟩

/- ===================== Keccak permutation ===================== -/

/-- The 64-bit lane mask. -/
def MASK64 : Nat := 2 ^ 64 - 1

/-- 64-bit rotate left of a lane value by `n` bit positions (0 ≤ n < 64). -/
def rol64 (x n : Nat) : Nat :=
  Nat.lor ((x <<< n) % 2 ^ 64) (x >>> (64 - n))

/-- The rho-step rotation offset of each lane, indexed by lane l = x + 5y. -/
def keccakRhoOffsets : List Nat :=
  [0, 1, 62, 28, 27] ++ [36, 44, 6, 55, 20] ++ [3, 10, 43, 25, 39]
    ++ [41, 45, 15, 21, 8] ++ [18, 2, 61, 56, 14]

/-- Modelled from the spec: the permutation bodies are not under src/
(sha3.h only declares them). One Keccak-f[1600] round — the theta, rho, pi,
chi, and iota steps of spec section 4.1 — on a 25-lane state (lane
l = x + 5y, each lane a 64-bit word), with iota round constant `rc`. -/
def keccakRound (s : List Nat) (rc : Nat) : List Nat :=
  let a := fun i => s.getD i 0
  let c := fun x =>
    Nat.xor (a x) (Nat.xor (a (x + 5))
      (Nat.xor (a (x + 10)) (Nat.xor (a (x + 15)) (a (x + 20)))))
  let d := fun x => Nat.xor (c ((x + 4) % 5)) (rol64 (c ((x + 1) % 5)) 1)
  let th := fun l => Nat.xor (a l) (d (l % 5))
  let rp := fun l =>
    let src := (l % 5 + 3 * (l / 5)) % 5 + 5 * (l % 5)
    rol64 (th src) (keccakRhoOffsets.getD src 0)
  let ch := fun l =>
    let x := l % 5
    let y := l / 5
    Nat.xor (rp l)
      (Nat.land (Nat.xor (rp ((x + 1) % 5 + 5 * y)) MASK64)
        (rp ((x + 2) % 5 + 5 * y)))
  List.ofFn (n := 25) fun l =>
    if l.val = 0 then Nat.xor (ch 0) rc else ch l.val

/-- The standard FIPS-202 iota round constants for the 24 rounds. -/
def keccakRoundConstants : List Nat :=
  [0x1, 0x8082, 0x800000000000808A, 0x8000000080008000]
    ++ [0x808B, 0x80000001, 0x8000000080008081, 0x8000000000008009]
    ++ [0x8A, 0x88, 0x80008009, 0x8000000A]
    ++ [0x8000808B, 0x800000000000008B, 0x8000000000008089, 0x8000000000008003]
    ++ [0x8000000000008002, 0x8000000000000080, 0x800A, 0x800000008000000A]
    ++ [0x8000000080008081, 0x8000000000008080, 0x80000001, 0x8000000080008008]

/-- Modelled from the spec: the body of qsc_keccak_permute_p1600c is not
under src/. The compact, table-driven permutation: applies the round
function `rounds` times, taking the iota constants from the table. -/
def qsc_keccak_permute_p1600c (state : List Nat) (rounds : Nat) : List Nat :=
  (keccakRoundConstants.take rounds).foldl keccakRound state

/-- Modelled from the spec: the body of qsc_keccak_permute_p1600u is not
under src/, and its declaration takes no round-count parameter. The
unrolled permutation: the full 24-round schedule written out application by
application with literal round constants. -/
def qsc_keccak_permute_p1600u (state : List Nat) : List Nat :=
  keccakRound (keccakRound (keccakRound (keccakRound (keccakRound (keccakRound
  (keccakRound (keccakRound (keccakRound (keccakRound (keccakRound (keccakRound
  (keccakRound (keccakRound (keccakRound (keccakRound (keccakRound (keccakRound
  (keccakRound (keccakRound (keccakRound (keccakRound (keccakRound (keccakRound
    state
    0x0000000000000001) 0x0000000000008082) 0x800000000000808A) 0x8000000080008000)
    0x000000000000808B) 0x0000000080000001) 0x8000000080008081) 0x8000000000008009)
    0x000000000000008A) 0x0000000000000088) 0x0000000080008009) 0x000000008000000A)
    0x000000008000808B) 0x800000000000008B) 0x8000000000008089) 0x8000000000008003)
    0x8000000000008002) 0x8000000000000080) 0x000000000000800A) 0x800000008000000A)
    0x8000000080008081) 0x8000000000008080) 0x0000000080000001) 0x8000000080008008

/-- C5 counterexample: at round count 12 (within the claimed [1,48] range)
and the all-zero input state, the compact permutation and the unrolled
permutation disagree — the unrolled variant takes no round-count parameter
and always runs the full 24-round schedule. -/
theorem keccak_permute_rounds_counterexample :
    qsc_keccak_permute_p1600c (List.replicate 25 0) 12
      ≠ qsc_keccak_permute_p1600u (List.replicate 25 0) := by decide

/-- C5 amended: for every 25-lane input state, the unrolled permutation
(which has no round-count parameter and always performs 24 rounds) equals
the compact permutation run at the standard 24 rounds, bit for bit. -/
theorem keccak_permute_unrolled_eq_compact (state : List Nat) :
    qsc_keccak_permute_p1600u state
      = qsc_keccak_permute_p1600c state QSC_KECCAK_PERMUTATION_ROUNDS := rfl

/- ===================== Sponge engine (modelled from the spec) ===================== -/

/-- A list of bytes read as a little-endian 64-bit lane value. -/
def leBytesToWord (bs : List Nat) : Nat :=
  bs.foldr (fun b acc => b % 256 + 256 * acc) 0

/-- The 8 little-endian bytes of a 64-bit lane value. -/
def wordToLeBytes (w : Nat) : List Nat :=
  List.ofFn (n := 8) fun i => w / 256 ^ i.val % 256

/-- XOR a block of at most 200 message bytes into the 25-lane state,
little-endian within each lane. -/
def xorBlockIntoState (s : List Nat) (block : List Nat) : List Nat :=
  List.ofFn (n := 25) fun l =>
    Nat.xor (s.getD l.val 0) (leBytesToWord ((block.drop (8 * l.val)).take 8))

/-- The first `rate` bytes of the state, little-endian within each lane. -/
def stateToBytes (s : List Nat) (rate : Nat) : List Nat :=
  ((List.ofFn (n := 25) fun l => wordToLeBytes (s.getD l.val 0)).flatten).take rate

/-- Modelled from the spec: the final partial block of an absorb — the
message bytes followed by the domain-separation byte XORed in at the
message end and the 0x80 multi-rate padding byte XORed in at rate - 1
(spec section 4.2). Requires msg.length < rate. -/
def padBlock (rate : Nat) (msg : List Nat) (domain : Nat) : List Nat :=
  List.ofFn (n := rate) fun i =>
    let b := msg.getD i.val 0
    let b1 := if i.val = msg.length then Nat.xor b domain else b
    if i.val = rate - 1 then Nat.xor b1 0x80 else b1

/-- The full-block absorb loop: XOR the next rate-sized block of the
message into the state and permute, `n` times in sequence. -/
def keccak_absorb_rec (rate rounds : Nat) (s : List Nat) (msg : List Nat) :
    Nat → List Nat
  | 0 => s
  | n + 1 =>
      keccak_absorb_rec rate rounds
        (qsc_keccak_permute_p1600c (xorBlockIntoState s (msg.take rate)) rounds)
        (msg.drop rate) n

/-- Modelled from the spec: qsc_keccak_absorb's body is not under src/.
XORs the message into the state rate bytes at a time, permuting between
full blocks; the final partial block takes the domain byte and the 0x80
padding before the final permutation (spec section 4.2). -/
def keccak_absorb_blocks (rate rounds : Nat) (s : List Nat) (msg : List Nat)
    (domain : Nat) : List Nat :=
  if 0 < rate then
    qsc_keccak_permute_p1600c
      (xorBlockIntoState
        (keccak_absorb_rec rate rounds s msg (msg.length / rate))
        (padBlock rate (msg.drop (msg.length / rate * rate)) domain))
      rounds
  else s

/-- Modelled from the spec: absorbing a sequence of exact full rate-sized
blocks (as produced by bytepad) with a permutation after each block and no
padding. -/
def absorb_full_blocks (rate rounds : Nat) (s : List Nat) (msg : List Nat) :
    List Nat :=
  if 0 < rate then keccak_absorb_rec rate rounds s msg (msg.length / rate)
  else s

/-- Modelled from the spec: qsc_keccak_squeezeblocks' body is not under
src/. Extracts rate-sized blocks from the already-permuted state,
permuting once per block after the first (spec section 4.2). -/
def qsc_keccak_squeezeblocks (rate rounds : Nat) (s : List Nat) :
    Nat → List Nat
  | 0 => []
  | n + 1 =>
      stateToBytes s rate
        ++ qsc_keccak_squeezeblocks rate rounds
             (qsc_keccak_permute_p1600c s rounds) n

/-- The minimal big-endian byte string of a positive value. -/
def beBytes (x : Nat) : List Nat :=
  if h : x = 0 then [] else beBytes (x / 256) ++ [x % 256]
termination_by x
decreasing_by exact Nat.div_lt_self (Nat.pos_of_ne_zero h) (by omega)

/-- SP800-185 left_encode: the byte count followed by the big-endian
bytes of the value. -/
def left_encode (x : Nat) : List Nat :=
  let bs := if x = 0 then [0] else beBytes x
  bs.length :: bs

/-- SP800-185 right_encode: the big-endian bytes of the value followed by
the byte count. -/
def right_encode (x : Nat) : List Nat :=
  let bs := if x = 0 then [0] else beBytes x
  bs ++ [bs.length]

/-- SP800-185 encode_string: the left-encoded bit length followed by the
string bytes. -/
def encode_string (s : List Nat) : List Nat :=
  left_encode (8 * s.length) ++ s

/-- SP800-185 bytepad: the left-encoded rate followed by the data, zero
padded up to a multiple of the rate. -/
def bytepad (x : List Nat) (w : Nat) : List Nat :=
  let z := left_encode w ++ x
  z ++ List.replicate ((w - z.length % w) % w) 0

/-- Modelled from the spec: qsc_shake_initialize's body is not under src/.
Zeroes the state, then absorbs and finalizes the key with the SHAKE domain
byte (spec section 4.3). -/
def qsc_shake_initialized (rate : Nat) (key : List Nat) : List Nat :=
  keccak_absorb_blocks rate QSC_KECCAK_PERMUTATION_ROUNDS
    (List.replicate 25 0) key QSC_KECCAK_SHAKE_DOMAIN_ID

/-- qsc_shake_squeezeblocks: squeeze at the standard round count. -/
def qsc_shake_squeezeblocks (rate : Nat) (s : List Nat) (nblocks : Nat) :
    List Nat :=
  qsc_keccak_squeezeblocks rate QSC_KECCAK_PERMUTATION_ROUNDS s nblocks

/-- Modelled from the spec: qsc_cshake_initialize's body is not under src/.
Per spec section 4.3, cSHAKE absorbs the function-name and customization
strings with left-encoded length prefixes (SP800-185 bytepad) before the
key with the cSHAKE domain byte, and degenerates to plain SHAKE when both
strings are empty — an equivalence the spec requires to be preserved
exactly. -/
def qsc_cshake_initialized (rate : Nat) (key name custom : List Nat) :
    List Nat :=
  if name = [] ∧ custom = [] then
    qsc_shake_initialized rate key
  else
    keccak_absorb_blocks rate QSC_KECCAK_PERMUTATION_ROUNDS
      (absorb_full_blocks rate QSC_KECCAK_PERMUTATION_ROUNDS
        (List.replicate 25 0)
        (bytepad (encode_string name ++ encode_string custom) rate))
      key QSC_KECCAK_CSHAKE_DOMAIN_ID

/-- qsc_cshake_squeezeblocks: squeeze at the standard round count. -/
def qsc_cshake_squeezeblocks (rate : Nat) (s : List Nat) (nblocks : Nat) :
    List Nat :=
  qsc_keccak_squeezeblocks rate QSC_KECCAK_PERMUTATION_ROUNDS s nblocks

/-- C6: for every key, every supported rate, and every block count,
initializing cSHAKE with empty name and empty customization strings and
squeezing yields byte-identical output to initializing plain SHAKE with the
same key and squeezing the same number of blocks. -/
theorem cshake_empty_strings_eq_shake (rate : Nat) (key : List Nat)
    (nblocks : Nat)
    (h : rate = QSC_KECCAK_128_RATE ∨ rate = QSC_KECCAK_256_RATE
      ∨ rate = QSC_KECCAK_512_RATE) :
    qsc_cshake_squeezeblocks rate (qsc_cshake_initialized rate key [] []) nblocks
      = qsc_shake_squeezeblocks rate (qsc_shake_initialized rate key) nblocks := by
  clear h
  unfold qsc_cshake_squeezeblocks qsc_shake_squeezeblocks qsc_cshake_initialized
  rw [if_pos ⟨rfl, rfl⟩]

/-- C6 witness: at the 256-bit rate with key bytes [1, 2, 3] and one
squeezed block, the cSHAKE-with-empty-strings output equals the SHAKE
output. -/
theorem cshake_empty_strings_eq_shake_witness :
    (QSC_KECCAK_256_RATE = QSC_KECCAK_128_RATE
      ∨ QSC_KECCAK_256_RATE = QSC_KECCAK_256_RATE
      ∨ QSC_KECCAK_256_RATE = QSC_KECCAK_512_RATE)
  ∧ qsc_cshake_squeezeblocks QSC_KECCAK_256_RATE
      (qsc_cshake_initialized QSC_KECCAK_256_RATE [1, 2, 3] [] []) 1
      = qsc_shake_squeezeblocks QSC_KECCAK_256_RATE
          (qsc_shake_initialized QSC_KECCAK_256_RATE [1, 2, 3]) 1 :=
  ⟨Or.inr (Or.inl rfl),
   cshake_empty_strings_eq_shake QSC_KECCAK_256_RATE [1, 2, 3] 1
     (Or.inr (Or.inl rfl))⟩

/- ===================== Single-lane SHAKE / KMAC (modelled from the spec) ===================== -/

/-- The single-lane SHAKE call: initialize with the key, squeeze enough
rate-sized blocks to cover `outlen` bytes, and truncate. -/
def qsc_shake (rate : Nat) (key : List Nat) (outlen : Nat) : List Nat :=
  (qsc_shake_squeezeblocks rate (qsc_shake_initialized rate key)
    ((outlen + rate - 1) / rate)).take outlen

/-- The ASCII bytes of the KMAC function-name string "KMAC". -/
def kmac_name_bytes : List Nat := [0x4B, 0x4D, 0x41, 0x43]

/-- Modelled from the spec: the KMAC bodies are not under src/. KMAC is
cSHAKE keyed with name "KMAC" and the customization string: absorb
bytepad(encode_string("KMAC") ++ encode_string(custom)) and
bytepad(encode_string(key)) as full blocks, then the message followed by
the right-encoded requested output bit length with the KMAC domain byte,
then squeeze and truncate (spec section 4.3). -/
def qsc_kmac (rate : Nat) (key custom msg : List Nat) (outlen : Nat) :
    List Nat :=
  let s0 := absorb_full_blocks rate QSC_KECCAK_PERMUTATION_ROUNDS
    (List.replicate 25 0)
    (bytepad (encode_string kmac_name_bytes ++ encode_string custom) rate)
  let s1 := absorb_full_blocks rate QSC_KECCAK_PERMUTATION_ROUNDS s0
    (bytepad (encode_string key) rate)
  let s2 := keccak_absorb_blocks rate QSC_KECCAK_PERMUTATION_ROUNDS s1
    (msg ++ right_encode (8 * outlen)) QSC_KECCAK_KMAC_DOMAIN_ID
  (qsc_keccak_squeezeblocks rate QSC_KECCAK_PERMUTATION_ROUNDS s2
    ((outlen + rate - 1) / rate)).take outlen

/- ===================== Multi-lane SIMD variants (modelled from the spec) ===================== -/

/-- Modelled from the spec: the x4/x8 bodies are not under src/. One shared
permutation step applied to every lane of the combined multi-lane state
(spec section 4.4: one shared permutation schedule over N independent state
lanes). -/
def keccakx_permute (rounds : Nat) (ss : List (List Nat)) : List (List Nat) :=
  ss.map (fun s => qsc_keccak_permute_p1600c s rounds)

/-- The lock-step full-block absorb loop over all lanes: one shared
schedule XORs each lane's next rate-sized block into that lane's state and
then permutes every lane, `n` times. -/
def keccakx_absorb_rec (rate rounds : Nat) (ss msgs : List (List Nat)) :
    Nat → List (List Nat)
  | 0 => ss
  | n + 1 =>
      keccakx_absorb_rec rate rounds
        (keccakx_permute rounds
          (List.zipWith (fun s m => xorBlockIntoState s (m.take rate)) ss msgs))
        (msgs.map (fun m => m.drop rate)) n

/-- Lock-step absorb with final padding: the shared block schedule is
driven by the common input length (the x4/x8 interfaces take one shared
length for all lanes); each lane then takes its own padded final block
before one shared final permutation. -/
def keccakx_absorb_blocks (rate rounds : Nat) (ss msgs : List (List Nat))
    (domain : Nat) : List (List Nat) :=
  if 0 < rate then
    let len := (msgs.headD []).length
    keccakx_permute rounds
      (List.zipWith
        (fun s m =>
          xorBlockIntoState s (padBlock rate (m.drop (len / rate * rate)) domain))
        (keccakx_absorb_rec rate rounds ss msgs (len / rate)) msgs)
  else ss

/-- Lock-step absorb of exact full-block inputs (bytepad output) with the
shared schedule driven by the common input length. -/
def keccakx_absorb_full (rate rounds : Nat) (ss msgs : List (List Nat)) :
    List (List Nat) :=
  if 0 < rate then
    keccakx_absorb_rec rate rounds ss msgs ((msgs.headD []).length / rate)
  else ss

/-- Lock-step squeeze: every lane yields its rate-sized block, then one
shared permutation advances all lanes, once per block after the first. -/
def keccakx_squeezeblocks (rate rounds : Nat) (ss : List (List Nat)) :
    Nat → List (List Nat)
  | 0 => ss.map (fun _ => [])
  | n + 1 =>
      List.zipWith (fun s rest => stateToBytes s rate ++ rest) ss
        (keccakx_squeezeblocks rate rounds (keccakx_permute rounds ss) n)

/-- Modelled from the spec: the generic N-lane SHAKE — absorb every lane's
key in lock-step with the SHAKE domain, then squeeze all lanes in
lock-step and truncate each to `outlen` bytes. The shake128x4 ...
shake512x8 functions are its 4- and 8-lane instances. -/
def shakex (rate : Nat) (keys : List (List Nat)) (outlen : Nat) :
    List (List Nat) :=
  (keccakx_squeezeblocks rate QSC_KECCAK_PERMUTATION_ROUNDS
    (keccakx_absorb_blocks rate QSC_KECCAK_PERMUTATION_ROUNDS
      (keys.map (fun _ => List.replicate 25 0)) keys QSC_KECCAK_SHAKE_DOMAIN_ID)
    ((outlen + rate - 1) / rate)).map (fun o => o.take outlen)

/-- Modelled from the spec: the generic N-lane KMAC over per-lane
(key, custom, message) triples, all three shared-length as in the x4/x8
interfaces; the kmac128x4 ... kmac512x8 functions are its 4- and 8-lane
instances. -/
def kmacx (rate : Nat) (lanes : List (List Nat × List Nat × List Nat))
    (outlen : Nat) : List (List Nat) :=
  let ss0 := keccakx_absorb_full rate QSC_KECCAK_PERMUTATION_ROUNDS
    (lanes.map (fun _ => List.replicate 25 0))
    (lanes.map (fun t =>
      bytepad (encode_string kmac_name_bytes ++ encode_string t.2.1) rate))
  let ss1 := keccakx_absorb_full rate QSC_KECCAK_PERMUTATION_ROUNDS ss0
    (lanes.map (fun t => bytepad (encode_string t.1) rate))
  let ss2 := keccakx_absorb_blocks rate QSC_KECCAK_PERMUTATION_ROUNDS ss1
    (lanes.map (fun t => t.2.2 ++ right_encode (8 * outlen)))
    QSC_KECCAK_KMAC_DOMAIN_ID
  (keccakx_squeezeblocks rate QSC_KECCAK_PERMUTATION_ROUNDS ss2
    ((outlen + rate - 1) / rate)).map (fun o => o.take outlen)

/-- shake128x4: 4 SHAKE-128 instances in lock-step. -/
def shake128x4 (k0 k1 k2 k3 : List Nat) (outlen : Nat) : List (List Nat) :=
  shakex QSC_KECCAK_128_RATE [k0, k1, k2, k3] outlen

/-- shake256x4: 4 SHAKE-256 instances in lock-step. -/
def shake256x4 (k0 k1 k2 k3 : List Nat) (outlen : Nat) : List (List Nat) :=
  shakex QSC_KECCAK_256_RATE [k0, k1, k2, k3] outlen

/-- shake512x4: 4 SHAKE-512 instances in lock-step. -/
def shake512x4 (k0 k1 k2 k3 : List Nat) (outlen : Nat) : List (List Nat) :=
  shakex QSC_KECCAK_512_RATE [k0, k1, k2, k3] outlen

/-- shake128x8: 8 SHAKE-128 instances in lock-step. -/
def shake128x8 (k0 k1 k2 k3 k4 k5 k6 k7 : List Nat) (outlen : Nat) :
    List (List Nat) :=
  shakex QSC_KECCAK_128_RATE [k0, k1, k2, k3, k4, k5, k6, k7] outlen

/-- shake256x8: 8 SHAKE-256 instances in lock-step. -/
def shake256x8 (k0 k1 k2 k3 k4 k5 k6 k7 : List Nat) (outlen : Nat) :
    List (List Nat) :=
  shakex QSC_KECCAK_256_RATE [k0, k1, k2, k3, k4, k5, k6, k7] outlen

/-- shake512x8: 8 SHAKE-512 instances in lock-step. -/
def shake512x8 (k0 k1 k2 k3 k4 k5 k6 k7 : List Nat) (outlen : Nat) :
    List (List Nat) :=
  shakex QSC_KECCAK_512_RATE [k0, k1, k2, k3, k4, k5, k6, k7] outlen

/-- kmac128x4: 4 KMAC-128 instances in lock-step. -/
def kmac128x4 (k0 k1 k2 k3 c0 c1 c2 c3 m0 m1 m2 m3 : List Nat)
    (outlen : Nat) : List (List Nat) :=
  kmacx QSC_KECCAK_128_RATE [(k0, c0, m0), (k1, c1, m1), (k2, c2, m2), (k3, c3, m3)] outlen

/-- kmac256x4: 4 KMAC-256 instances in lock-step. -/
def kmac256x4 (k0 k1 k2 k3 c0 c1 c2 c3 m0 m1 m2 m3 : List Nat)
    (outlen : Nat) : List (List Nat) :=
  kmacx QSC_KECCAK_256_RATE [(k0, c0, m0), (k1, c1, m1), (k2, c2, m2), (k3, c3, m3)] outlen

/-- kmac512x4: 4 KMAC-512 instances in lock-step. -/
def kmac512x4 (k0 k1 k2 k3 c0 c1 c2 c3 m0 m1 m2 m3 : List Nat)
    (outlen : Nat) : List (List Nat) :=
  kmacx QSC_KECCAK_512_RATE [(k0, c0, m0), (k1, c1, m1), (k2, c2, m2), (k3, c3, m3)] outlen

/-- kmac128x8: 8 KMAC-128 instances in lock-step. -/
def kmac128x8 (k0 k1 k2 k3 k4 k5 k6 k7 c0 c1 c2 c3 c4 c5 c6 c7
    m0 m1 m2 m3 m4 m5 m6 m7 : List Nat) (outlen : Nat) : List (List Nat) :=
  kmacx QSC_KECCAK_128_RATE
    [(k0, c0, m0), (k1, c1, m1), (k2, c2, m2), (k3, c3, m3),
     (k4, c4, m4), (k5, c5, m5), (k6, c6, m6), (k7, c7, m7)] outlen

/-- kmac256x8: 8 KMAC-256 instances in lock-step. -/
def kmac256x8 (k0 k1 k2 k3 k4 k5 k6 k7 c0 c1 c2 c3 c4 c5 c6 c7
    m0 m1 m2 m3 m4 m5 m6 m7 : List Nat) (outlen : Nat) : List (List Nat) :=
  kmacx QSC_KECCAK_256_RATE
    [(k0, c0, m0), (k1, c1, m1), (k2, c2, m2), (k3, c3, m3),
     (k4, c4, m4), (k5, c5, m5), (k6, c6, m6), (k7, c7, m7)] outlen

/-- kmac512x8: 8 KMAC-512 instances in lock-step. -/
def kmac512x8 (k0 k1 k2 k3 k4 k5 k6 k7 c0 c1 c2 c3 c4 c5 c6 c7
    m0 m1 m2 m3 m4 m5 m6 m7 : List Nat) (outlen : Nat) : List (List Nat) :=
  kmacx QSC_KECCAK_512_RATE
    [(k0, c0, m0), (k1, c1, m1), (k2, c2, m2), (k3, c3, m3),
     (k4, c4, m4), (k5, c5, m5), (k6, c6, m6), (k7, c7, m7)] outlen

/- ===================== Lock-step equivalence lemmas ===================== -/

theorem list_zipWith_fst {α β : Type} (as : List α) (bs : List β)
    (h : as.length ≤ bs.length) :
    List.zipWith (fun a _ => a) as bs = as := by
  induction as generalizing bs with
  | nil => rfl
  | cons a as ih =>
      cases bs with
      | nil => simp at h
      | cons b bs =>
          simp only [List.zipWith, List.cons.injEq, true_and]
          exact ih bs (by simpa using h)

theorem zipWith_zipWith_left_map {α β γ σ : Type} (f : α → β → γ)
    (g : σ → β → α) (d : β → β) (ss : List σ) (msgs : List β) :
    List.zipWith f (List.zipWith g ss msgs) (msgs.map d)
      = List.zipWith (fun s m => f (g s m) (d m)) ss msgs := by
  induction ss generalizing msgs with
  | nil => rfl
  | cons s ss ih => cases msgs <;> simp [ih]

theorem zipWith_zipWith_left {α β γ σ : Type} (f : α → β → γ)
    (g : σ → β → α) (ss : List σ) (msgs : List β) :
    List.zipWith f (List.zipWith g ss msgs) msgs
      = List.zipWith (fun s m => f (g s m) m) ss msgs := by
  induction ss generalizing msgs with
  | nil => rfl
  | cons s ss ih => cases msgs <;> simp [ih]

theorem zipWith_congr_mem {α β γ : Type} (f g : α → β → γ) (as : List α)
    (bs : List β) (h : ∀ b ∈ bs, ∀ a, f a b = g a b) :
    List.zipWith f as bs = List.zipWith g as bs := by
  induction as generalizing bs with
  | nil => rfl
  | cons a as ih =>
      cases bs with
      | nil => rfl
      | cons b bs =>
          simp only [List.zipWith, List.cons.injEq]
          exact ⟨h b (List.mem_cons_self b bs) a,
            ih bs (fun b' hb' a' => h b' (List.mem_cons_of_mem b hb') a')⟩

theorem zipWith_self_map {α β γ : Type} (f : α → β → γ) (g : α → β)
    (as : List α) :
    List.zipWith f as (as.map g) = as.map (fun a => f a (g a)) := by
  induction as with
  | nil => rfl
  | cons a as ih => simp [ih]

theorem zipWith_map_map {α β γ σ : Type} (f : α → β → γ) (g : σ → α)
    (t : σ → β) (xs : List σ) :
    List.zipWith f (xs.map g) (xs.map t) = xs.map (fun x => f (g x) (t x)) := by
  induction xs with
  | nil => rfl
  | cons x xs ih => simp [ih]

theorem zipWith_map_left_self {α β γ : Type} (f : α → β → γ) (g : β → α)
    (xs : List β) :
    List.zipWith f (xs.map g) xs = xs.map (fun x => f (g x) x) := by
  induction xs with
  | nil => rfl
  | cons x xs ih => simp [ih]

/-- The lock-step full-block loop over N lanes equals the independent
per-lane full-block loop, lane by lane. -/
theorem keccakx_absorb_rec_eq (rate rounds : Nat) :
    ∀ (n : Nat) (ss msgs : List (List Nat)), msgs.length = ss.length →
      keccakx_absorb_rec rate rounds ss msgs n
        = List.zipWith (fun s m => keccak_absorb_rec rate rounds s m n) ss msgs := by
  intro n
  induction n with
  | zero =>
      intro ss msgs h
      simp only [keccakx_absorb_rec, keccak_absorb_rec]
      exact (list_zipWith_fst ss msgs (le_of_eq h.symm)).symm
  | succ n ih =>
      intro ss msgs h
      have h2 : (msgs.map (fun m => m.drop rate)).length
          = (keccakx_permute rounds
              (List.zipWith (fun s m => xorBlockIntoState s (m.take rate)) ss msgs)).length := by
        simp [keccakx_permute, h]
      simp only [keccakx_absorb_rec]
      rw [ih _ _ h2]
      simp only [keccakx_permute, List.map_zipWith]
      rw [zipWith_zipWith_left_map]
      rfl

/-- The lock-step absorb-with-padding over N lanes of one shared input
length equals the independent per-lane absorb, lane by lane. -/
theorem keccakx_absorb_blocks_eq (rate rounds domain len : Nat)
    (hr : 0 < rate) :
    ∀ (ss msgs : List (List Nat)), msgs.length = ss.length →
      (∀ m ∈ msgs, m.length = len) →
      keccakx_absorb_blocks rate rounds ss msgs domain
        = List.zipWith (fun s m => keccak_absorb_blocks rate rounds s m domain)
            ss msgs := by
  intro ss msgs hlen hml
  rcases msgs with _ | ⟨m0, ms⟩
  · have hss : ss = [] := by
      cases ss with
      | nil => rfl
      | cons s ss => simp at hlen
    subst hss
    simp [keccakx_absorb_blocks, hr, keccakx_permute]
  · have hm0 : m0.length = len := hml m0 (List.mem_cons_self m0 ms)
    simp only [keccakx_absorb_blocks, if_pos hr, List.headD_cons]
    rw [keccakx_absorb_rec_eq rate rounds _ _ _ hlen]
    simp only [keccakx_permute, List.map_zipWith]
    rw [zipWith_zipWith_left]
    apply zipWith_congr_mem
    intro m hm s
    have hmlen : m.length = len := hml m hm
    simp only [keccak_absorb_blocks, if_pos hr]
    rw [hmlen, hm0]

/-- The lock-step full-block absorb over N lanes of one shared input
length equals the independent per-lane full-block absorb, lane by lane. -/
theorem keccakx_absorb_full_eq (rate rounds len : Nat) (hr : 0 < rate) :
    ∀ (ss msgs : List (List Nat)), msgs.length = ss.length →
      (∀ m ∈ msgs, m.length = len) →
      keccakx_absorb_full rate rounds ss msgs
        = List.zipWith (fun s m => absorb_full_blocks rate rounds s m) ss msgs := by
  intro ss msgs hlen hml
  rcases msgs with _ | ⟨m0, ms⟩
  · have hss : ss = [] := by
      cases ss with
      | nil => rfl
      | cons s ss => simp at hlen
    subst hss
    simp [keccakx_absorb_full, hr, keccakx_absorb_rec_eq rate rounds]
  · have hm0 : m0.length = len := hml m0 (List.mem_cons_self m0 ms)
    simp only [keccakx_absorb_full, if_pos hr, List.headD_cons]
    rw [keccakx_absorb_rec_eq rate rounds _ _ _ hlen]
    apply zipWith_congr_mem
    intro m hm s
    have hmlen : m.length = len := hml m hm
    simp only [absorb_full_blocks, if_pos hr]
    rw [hmlen, hm0]

/-- The lock-step squeeze over N lanes equals the independent per-lane
squeeze, lane by lane. -/
theorem keccakx_squeezeblocks_eq (rate rounds : Nat) :
    ∀ (n : Nat) (ss : List (List Nat)),
      keccakx_squeezeblocks rate rounds ss n
        = ss.map (fun s => qsc_keccak_squeezeblocks rate rounds s n) := by
  intro n
  induction n with
  | zero => intro ss; rfl
  | succ n ih =>
      intro ss
      simp only [keccakx_squeezeblocks]
      rw [ih]
      simp only [keccakx_permute, List.map_map]
      rw [zipWith_self_map]
      rfl

/-- The N-lane SHAKE equals N independent single-lane SHAKE calls when the
keys share one length (the x4/x8 interfaces pass a single shared key
length). -/
theorem shakex_eq (rate len : Nat) (hr : 0 < rate) (keys : List (List Nat))
    (hk : ∀ k ∈ keys, k.length = len) (outlen : Nat) :
    shakex rate keys outlen = keys.map (fun k => qsc_shake rate k outlen) := by
  unfold shakex qsc_shake
  rw [keccakx_absorb_blocks_eq rate QSC_KECCAK_PERMUTATION_ROUNDS
    QSC_KECCAK_SHAKE_DOMAIN_ID len hr _ _ (by simp) hk]
  rw [zipWith_map_left_self]
  rw [keccakx_squeezeblocks_eq]
  simp only [List.map_map]
  rfl

/-- The length of the KMAC name/customization prefix block depends only on
the customization length. -/
theorem kmac_prefix_len_congr (rate : Nat) (c c' : List Nat)
    (h : c.length = c'.length) :
    (bytepad (encode_string kmac_name_bytes ++ encode_string c) rate).length
      = (bytepad (encode_string kmac_name_bytes ++ encode_string c') rate).length := by
  simp [bytepad, encode_string, h]

/-- The length of the KMAC key block depends only on the key length. -/
theorem kmac_keyblock_len_congr (rate : Nat) (k k' : List Nat)
    (h : k.length = k'.length) :
    (bytepad (encode_string k) rate).length
      = (bytepad (encode_string k') rate).length := by
  simp [bytepad, encode_string, h]

/-- The N-lane KMAC equals N independent single-lane KMAC calls when the
keys, customization strings, and messages each share one length (the x4/x8
interfaces pass single shared keylen/cstlen/msglen values). -/
theorem kmacx_eq (rate klen clen mlen outlen : Nat) (hr : 0 < rate)
    (lanes : List (List Nat × List Nat × List Nat))
    (hk : ∀ t ∈ lanes, t.1.length = klen)
    (hc : ∀ t ∈ lanes, t.2.1.length = clen)
    (hm : ∀ t ∈ lanes, t.2.2.length = mlen) :
    kmacx rate lanes outlen
      = lanes.map (fun t => qsc_kmac rate t.1 t.2.1 t.2.2 outlen) := by
  have hcp : ∀ x ∈ lanes.map (fun t =>
      bytepad (encode_string kmac_name_bytes ++ encode_string t.2.1) rate),
      x.length = (bytepad (encode_string kmac_name_bytes
        ++ encode_string (List.replicate clen 0)) rate).length := by
    intro x hx
    simp only [List.mem_map] at hx
    obtain ⟨t, ht, rfl⟩ := hx
    exact kmac_prefix_len_congr rate _ _ (by simp [hc t ht])
  have hkp : ∀ x ∈ lanes.map (fun t => bytepad (encode_string t.1) rate),
      x.length = (bytepad (encode_string (List.replicate klen 0)) rate).length := by
    intro x hx
    simp only [List.mem_map] at hx
    obtain ⟨t, ht, rfl⟩ := hx
    exact kmac_keyblock_len_congr rate _ _ (by simp [hk t ht])
  have hmp : ∀ x ∈ lanes.map (fun t => t.2.2 ++ right_encode (8 * outlen)),
      x.length = mlen + (right_encode (8 * outlen)).length := by
    intro x hx
    simp only [List.mem_map] at hx
    obtain ⟨t, ht, rfl⟩ := hx
    simp [hm t ht]
  unfold kmacx qsc_kmac
  dsimp only
  rw [keccakx_absorb_full_eq rate QSC_KECCAK_PERMUTATION_ROUNDS _ hr _ _
    (by simp) hcp]
  rw [zipWith_map_map]
  rw [keccakx_absorb_full_eq rate QSC_KECCAK_PERMUTATION_ROUNDS _ hr _ _
    (by simp) hkp]
  rw [zipWith_map_map]
  rw [keccakx_absorb_blocks_eq rate QSC_KECCAK_PERMUTATION_ROUNDS
    QSC_KECCAK_KMAC_DOMAIN_ID (mlen + (right_encode (8 * outlen)).length) hr _ _
    (by simp) hmp]
  rw [zipWith_map_map]
  rw [keccakx_squeezeblocks_eq]
  simp only [List.map_map]
  rfl

theorem shakex4_eq (rate : Nat) (hr : 0 < rate) (k0 k1 k2 k3 : List Nat)
    (outlen : Nat) (h1 : k1.length = k0.length) (h2 : k2.length = k0.length)
    (h3 : k3.length = k0.length) :
    shakex rate [k0, k1, k2, k3] outlen
      = [qsc_shake rate k0 outlen, qsc_shake rate k1 outlen,
         qsc_shake rate k2 outlen, qsc_shake rate k3 outlen] := by
  have hk : ∀ k ∈ [k0, k1, k2, k3], k.length = k0.length := by
    intro k hkm
    simp only [List.mem_cons, List.not_mem_nil, or_false] at hkm
    rcases hkm with rfl | rfl | rfl | rfl
    · rfl
    · exact h1
    · exact h2
    · exact h3
  rw [shakex_eq rate k0.length hr _ hk outlen]
  rfl

theorem shakex8_eq (rate : Nat) (hr : 0 < rate)
    (k0 k1 k2 k3 k4 k5 k6 k7 : List Nat) (outlen : Nat)
    (h1 : k1.length = k0.length) (h2 : k2.length = k0.length)
    (h3 : k3.length = k0.length) (h4 : k4.length = k0.length)
    (h5 : k5.length = k0.length) (h6 : k6.length = k0.length)
    (h7 : k7.length = k0.length) :
    shakex rate [k0, k1, k2, k3, k4, k5, k6, k7] outlen
      = [qsc_shake rate k0 outlen, qsc_shake rate k1 outlen,
         qsc_shake rate k2 outlen, qsc_shake rate k3 outlen,
         qsc_shake rate k4 outlen, qsc_shake rate k5 outlen,
         qsc_shake rate k6 outlen, qsc_shake rate k7 outlen] := by
  have hk : ∀ k ∈ [k0, k1, k2, k3, k4, k5, k6, k7], k.length = k0.length := by
    intro k hkm
    simp only [List.mem_cons, List.not_mem_nil, or_false] at hkm
    rcases hkm with rfl | rfl | rfl | rfl | rfl | rfl | rfl | rfl
    · rfl
    · exact h1
    · exact h2
    · exact h3
    · exact h4
    · exact h5
    · exact h6
    · exact h7
  rw [shakex_eq rate k0.length hr _ hk outlen]
  rfl

theorem kmacx4_eq (rate : Nat) (hr : 0 < rate)
    (k0 k1 k2 k3 c0 c1 c2 c3 m0 m1 m2 m3 : List Nat) (outlen : Nat)
    (hk1 : k1.length = k0.length) (hk2 : k2.length = k0.length)
    (hk3 : k3.length = k0.length)
    (hc1 : c1.length = c0.length) (hc2 : c2.length = c0.length)
    (hc3 : c3.length = c0.length)
    (hm1 : m1.length = m0.length) (hm2 : m2.length = m0.length)
    (hm3 : m3.length = m0.length) :
    kmacx rate [(k0, c0, m0), (k1, c1, m1), (k2, c2, m2), (k3, c3, m3)] outlen
      = [qsc_kmac rate k0 c0 m0 outlen, qsc_kmac rate k1 c1 m1 outlen,
         qsc_kmac rate k2 c2 m2 outlen, qsc_kmac rate k3 c3 m3 outlen] := by
  have hk : ∀ t ∈ [(k0, c0, m0), (k1, c1, m1), (k2, c2, m2), (k3, c3, m3)],
      t.1.length = k0.length := by
    intro t ht
    simp only [List.mem_cons, List.not_mem_nil, or_false] at ht
    rcases ht with rfl | rfl | rfl | rfl
    · rfl
    · exact hk1
    · exact hk2
    · exact hk3
  have hc : ∀ t ∈ [(k0, c0, m0), (k1, c1, m1), (k2, c2, m2), (k3, c3, m3)],
      t.2.1.length = c0.length := by
    intro t ht
    simp only [List.mem_cons, List.not_mem_nil, or_false] at ht
    rcases ht with rfl | rfl | rfl | rfl
    · rfl
    · exact hc1
    · exact hc2
    · exact hc3
  have hm : ∀ t ∈ [(k0, c0, m0), (k1, c1, m1), (k2, c2, m2), (k3, c3, m3)],
      t.2.2.length = m0.length := by
    intro t ht
    simp only [List.mem_cons, List.not_mem_nil, or_false] at ht
    rcases ht with rfl | rfl | rfl | rfl
    · rfl
    · exact hm1
    · exact hm2
    · exact hm3
  rw [kmacx_eq rate k0.length c0.length m0.length outlen hr _ hk hc hm]
  rfl

theorem kmacx8_eq (rate : Nat) (hr : 0 < rate)
    (k0 k1 k2 k3 k4 k5 k6 k7 c0 c1 c2 c3 c4 c5 c6 c7
     m0 m1 m2 m3 m4 m5 m6 m7 : List Nat) (outlen : Nat)
    (hk1 : k1.length = k0.length) (hk2 : k2.length = k0.length)
    (hk3 : k3.length = k0.length) (hk4 : k4.length = k0.length)
    (hk5 : k5.length = k0.length) (hk6 : k6.length = k0.length)
    (hk7 : k7.length = k0.length)
    (hc1 : c1.length = c0.length) (hc2 : c2.length = c0.length)
    (hc3 : c3.length = c0.length) (hc4 : c4.length = c0.length)
    (hc5 : c5.length = c0.length) (hc6 : c6.length = c0.length)
    (hc7 : c7.length = c0.length)
    (hm1 : m1.length = m0.length) (hm2 : m2.length = m0.length)
    (hm3 : m3.length = m0.length) (hm4 : m4.length = m0.length)
    (hm5 : m5.length = m0.length) (hm6 : m6.length = m0.length)
    (hm7 : m7.length = m0.length) :
    kmacx rate
      [(k0, c0, m0), (k1, c1, m1), (k2, c2, m2), (k3, c3, m3),
       (k4, c4, m4), (k5, c5, m5), (k6, c6, m6), (k7, c7, m7)] outlen
      = [qsc_kmac rate k0 c0 m0 outlen, qsc_kmac rate k1 c1 m1 outlen,
         qsc_kmac rate k2 c2 m2 outlen, qsc_kmac rate k3 c3 m3 outlen,
         qsc_kmac rate k4 c4 m4 outlen, qsc_kmac rate k5 c5 m5 outlen,
         qsc_kmac rate k6 c6 m6 outlen, qsc_kmac rate k7 c7 m7 outlen] := by
  have hk : ∀ t ∈ [(k0, c0, m0), (k1, c1, m1), (k2, c2, m2), (k3, c3, m3),
      (k4, c4, m4), (k5, c5, m5), (k6, c6, m6), (k7, c7, m7)],
      t.1.length = k0.length := by
    intro t ht
    simp only [List.mem_cons, List.not_mem_nil, or_false] at ht
    rcases ht with rfl | rfl | rfl | rfl | rfl | rfl | rfl | rfl
    · rfl
    · exact hk1
    · exact hk2
    · exact hk3
    · exact hk4
    · exact hk5
    · exact hk6
    · exact hk7
  have hc : ∀ t ∈ [(k0, c0, m0), (k1, c1, m1), (k2, c2, m2), (k3, c3, m3),
      (k4, c4, m4), (k5, c5, m5), (k6, c6, m6), (k7, c7, m7)],
      t.2.1.length = c0.length := by
    intro t ht
    simp only [List.mem_cons, List.not_mem_nil, or_false] at ht
    rcases ht with rfl | rfl | rfl | rfl | rfl | rfl | rfl | rfl
    · rfl
    · exact hc1
    · exact hc2
    · exact hc3
    · exact hc4
    · exact hc5
    · exact hc6
    · exact hc7
  have hm : ∀ t ∈ [(k0, c0, m0), (k1, c1, m1), (k2, c2, m2), (k3, c3, m3),
      (k4, c4, m4), (k5, c5, m5), (k6, c6, m6), (k7, c7, m7)],
      t.2.2.length = m0.length := by
    intro t ht
    simp only [List.mem_cons, List.not_mem_nil, or_false] at ht
    rcases ht with rfl | rfl | rfl | rfl | rfl | rfl | rfl | rfl
    · rfl
    · exact hm1
    · exact hm2
    · exact hm3
    · exact hm4
    · exact hm5
    · exact hm6
    · exact hm7
  rw [kmacx_eq rate k0.length c0.length m0.length outlen hr _ hk hc hm]
  rfl

/-- C7: each of the twelve multi-lane SIMD functions (shake128x4,
shake256x4, shake512x4, shake128x8, shake256x8, shake512x8, kmac128x4,
kmac256x4, kmac512x4, kmac128x8, kmac256x8, kmac512x8) produces, for every
set of 4 (respectively 8) independent equal-length key (and, for KMAC,
equal-length customization and equal-length message) inputs and every
output length, byte-identical output in each lane to the 4 (respectively 8)
sequential single-lane SHAKE / KMAC calls on the same inputs. -/
theorem multilane_matches_sequential :
    (∀ (k0 k1 k2 k3 : List Nat) (outlen : Nat),
      k1.length = k0.length → k2.length = k0.length → k3.length = k0.length →
      shake128x4 k0 k1 k2 k3 outlen
        = [qsc_shake QSC_KECCAK_128_RATE k0 outlen, qsc_shake QSC_KECCAK_128_RATE k1 outlen, qsc_shake QSC_KECCAK_128_RATE k2 outlen, qsc_shake QSC_KECCAK_128_RATE k3 outlen])
  ∧ (∀ (k0 k1 k2 k3 : List Nat) (outlen : Nat),
      k1.length = k0.length → k2.length = k0.length → k3.length = k0.length →
      shake256x4 k0 k1 k2 k3 outlen
        = [qsc_shake QSC_KECCAK_256_RATE k0 outlen, qsc_shake QSC_KECCAK_256_RATE k1 outlen, qsc_shake QSC_KECCAK_256_RATE k2 outlen, qsc_shake QSC_KECCAK_256_RATE k3 outlen])
  ∧ (∀ (k0 k1 k2 k3 : List Nat) (outlen : Nat),
      k1.length = k0.length → k2.length = k0.length → k3.length = k0.length →
      shake512x4 k0 k1 k2 k3 outlen
        = [qsc_shake QSC_KECCAK_512_RATE k0 outlen, qsc_shake QSC_KECCAK_512_RATE k1 outlen, qsc_shake QSC_KECCAK_512_RATE k2 outlen, qsc_shake QSC_KECCAK_512_RATE k3 outlen])
  ∧ (∀ (k0 k1 k2 k3 k4 k5 k6 k7 : List Nat) (outlen : Nat),
      k1.length = k0.length → k2.length = k0.length → k3.length = k0.length → k4.length = k0.length → k5.length = k0.length → k6.length = k0.length → k7.length = k0.length →
      shake128x8 k0 k1 k2 k3 k4 k5 k6 k7 outlen
        = [qsc_shake QSC_KECCAK_128_RATE k0 outlen, qsc_shake QSC_KECCAK_128_RATE k1 outlen, qsc_shake QSC_KECCAK_128_RATE k2 outlen, qsc_shake QSC_KECCAK_128_RATE k3 outlen, qsc_shake QSC_KECCAK_128_RATE k4 outlen, qsc_shake QSC_KECCAK_128_RATE k5 outlen, qsc_shake QSC_KECCAK_128_RATE k6 outlen, qsc_shake QSC_KECCAK_128_RATE k7 outlen])
  ∧ (∀ (k0 k1 k2 k3 k4 k5 k6 k7 : List Nat) (outlen : Nat),
      k1.length = k0.length → k2.length = k0.length → k3.length = k0.length → k4.length = k0.length → k5.length = k0.length → k6.length = k0.length → k7.length = k0.length →
      shake256x8 k0 k1 k2 k3 k4 k5 k6 k7 outlen
        = [qsc_shake QSC_KECCAK_256_RATE k0 outlen, qsc_shake QSC_KECCAK_256_RATE k1 outlen, qsc_shake QSC_KECCAK_256_RATE k2 outlen, qsc_shake QSC_KECCAK_256_RATE k3 outlen, qsc_shake QSC_KECCAK_256_RATE k4 outlen, qsc_shake QSC_KECCAK_256_RATE k5 outlen, qsc_shake QSC_KECCAK_256_RATE k6 outlen, qsc_shake QSC_KECCAK_256_RATE k7 outlen])
  ∧ (∀ (k0 k1 k2 k3 k4 k5 k6 k7 : List Nat) (outlen : Nat),
      k1.length = k0.length → k2.length = k0.length → k3.length = k0.length → k4.length = k0.length → k5.length = k0.length → k6.length = k0.length → k7.length = k0.length →
      shake512x8 k0 k1 k2 k3 k4 k5 k6 k7 outlen
        = [qsc_shake QSC_KECCAK_512_RATE k0 outlen, qsc_shake QSC_KECCAK_512_RATE k1 outlen, qsc_shake QSC_KECCAK_512_RATE k2 outlen, qsc_shake QSC_KECCAK_512_RATE k3 outlen, qsc_shake QSC_KECCAK_512_RATE k4 outlen, qsc_shake QSC_KECCAK_512_RATE k5 outlen, qsc_shake QSC_KECCAK_512_RATE k6 outlen, qsc_shake QSC_KECCAK_512_RATE k7 outlen])
  ∧ (∀ (k0 k1 k2 k3 c0 c1 c2 c3 m0 m1 m2 m3 : List Nat) (outlen : Nat),
      k1.length = k0.length → k2.length = k0.length → k3.length = k0.length → c1.length = c0.length → c2.length = c0.length → c3.length = c0.length → m1.length = m0.length → m2.length = m0.length → m3.length = m0.length →
      kmac128x4 k0 k1 k2 k3 c0 c1 c2 c3 m0 m1 m2 m3 outlen
        = [qsc_kmac QSC_KECCAK_128_RATE k0 c0 m0 outlen, qsc_kmac QSC_KECCAK_128_RATE k1 c1 m1 outlen, qsc_kmac QSC_KECCAK_128_RATE k2 c2 m2 outlen, qsc_kmac QSC_KECCAK_128_RATE k3 c3 m3 outlen])
  ∧ (∀ (k0 k1 k2 k3 c0 c1 c2 c3 m0 m1 m2 m3 : List Nat) (outlen : Nat),
      k1.length = k0.length → k2.length = k0.length → k3.length = k0.length → c1.length = c0.length → c2.length = c0.length → c3.length = c0.length → m1.length = m0.length → m2.length = m0.length → m3.length = m0.length →
      kmac256x4 k0 k1 k2 k3 c0 c1 c2 c3 m0 m1 m2 m3 outlen
        = [qsc_kmac QSC_KECCAK_256_RATE k0 c0 m0 outlen, qsc_kmac QSC_KECCAK_256_RATE k1 c1 m1 outlen, qsc_kmac QSC_KECCAK_256_RATE k2 c2 m2 outlen, qsc_kmac QSC_KECCAK_256_RATE k3 c3 m3 outlen])
  ∧ (∀ (k0 k1 k2 k3 c0 c1 c2 c3 m0 m1 m2 m3 : List Nat) (outlen : Nat),
      k1.length = k0.length → k2.length = k0.length → k3.length = k0.length → c1.length = c0.length → c2.length = c0.length → c3.length = c0.length → m1.length = m0.length → m2.length = m0.length → m3.length = m0.length →
      kmac512x4 k0 k1 k2 k3 c0 c1 c2 c3 m0 m1 m2 m3 outlen
        = [qsc_kmac QSC_KECCAK_512_RATE k0 c0 m0 outlen, qsc_kmac QSC_KECCAK_512_RATE k1 c1 m1 outlen, qsc_kmac QSC_KECCAK_512_RATE k2 c2 m2 outlen, qsc_kmac QSC_KECCAK_512_RATE k3 c3 m3 outlen])
  ∧ (∀ (k0 k1 k2 k3 k4 k5 k6 k7 c0 c1 c2 c3 c4 c5 c6 c7 m0 m1 m2 m3 m4 m5 m6 m7 : List Nat) (outlen : Nat),
      k1.length = k0.length → k2.length = k0.length → k3.length = k0.length → k4.length = k0.length → k5.length = k0.length → k6.length = k0.length → k7.length = k0.length → c1.length = c0.length → c2.length = c0.length → c3.length = c0.length → c4.length = c0.length → c5.length = c0.length → c6.length = c0.length → c7.length = c0.length → m1.length = m0.length → m2.length = m0.length → m3.length = m0.length → m4.length = m0.length → m5.length = m0.length → m6.length = m0.length → m7.length = m0.length →
      kmac128x8 k0 k1 k2 k3 k4 k5 k6 k7 c0 c1 c2 c3 c4 c5 c6 c7 m0 m1 m2 m3 m4 m5 m6 m7 outlen
        = [qsc_kmac QSC_KECCAK_128_RATE k0 c0 m0 outlen, qsc_kmac QSC_KECCAK_128_RATE k1 c1 m1 outlen, qsc_kmac QSC_KECCAK_128_RATE k2 c2 m2 outlen, qsc_kmac QSC_KECCAK_128_RATE k3 c3 m3 outlen, qsc_kmac QSC_KECCAK_128_RATE k4 c4 m4 outlen, qsc_kmac QSC_KECCAK_128_RATE k5 c5 m5 outlen, qsc_kmac QSC_KECCAK_128_RATE k6 c6 m6 outlen, qsc_kmac QSC_KECCAK_128_RATE k7 c7 m7 outlen])
  ∧ (∀ (k0 k1 k2 k3 k4 k5 k6 k7 c0 c1 c2 c3 c4 c5 c6 c7 m0 m1 m2 m3 m4 m5 m6 m7 : List Nat) (outlen : Nat),
      k1.length = k0.length → k2.length = k0.length → k3.length = k0.length → k4.length = k0.length → k5.length = k0.length → k6.length = k0.length → k7.length = k0.length → c1.length = c0.length → c2.length = c0.length → c3.length = c0.length → c4.length = c0.length → c5.length = c0.length → c6.length = c0.length → c7.length = c0.length → m1.length = m0.length → m2.length = m0.length → m3.length = m0.length → m4.length = m0.length → m5.length = m0.length → m6.length = m0.length → m7.length = m0.length →
      kmac256x8 k0 k1 k2 k3 k4 k5 k6 k7 c0 c1 c2 c3 c4 c5 c6 c7 m0 m1 m2 m3 m4 m5 m6 m7 outlen
        = [qsc_kmac QSC_KECCAK_256_RATE k0 c0 m0 outlen, qsc_kmac QSC_KECCAK_256_RATE k1 c1 m1 outlen, qsc_kmac QSC_KECCAK_256_RATE k2 c2 m2 outlen, qsc_kmac QSC_KECCAK_256_RATE k3 c3 m3 outlen, qsc_kmac QSC_KECCAK_256_RATE k4 c4 m4 outlen, qsc_kmac QSC_KECCAK_256_RATE k5 c5 m5 outlen, qsc_kmac QSC_KECCAK_256_RATE k6 c6 m6 outlen, qsc_kmac QSC_KECCAK_256_RATE k7 c7 m7 outlen])
  ∧ (∀ (k0 k1 k2 k3 k4 k5 k6 k7 c0 c1 c2 c3 c4 c5 c6 c7 m0 m1 m2 m3 m4 m5 m6 m7 : List Nat) (outlen : Nat),
      k1.length = k0.length → k2.length = k0.length → k3.length = k0.length → k4.length = k0.length → k5.length = k0.length → k6.length = k0.length → k7.length = k0.length → c1.length = c0.length → c2.length = c0.length → c3.length = c0.length → c4.length = c0.length → c5.length = c0.length → c6.length = c0.length → c7.length = c0.length → m1.length = m0.length → m2.length = m0.length → m3.length = m0.length → m4.length = m0.length → m5.length = m0.length → m6.length = m0.length → m7.length = m0.length →
      kmac512x8 k0 k1 k2 k3 k4 k5 k6 k7 c0 c1 c2 c3 c4 c5 c6 c7 m0 m1 m2 m3 m4 m5 m6 m7 outlen
        = [qsc_kmac QSC_KECCAK_512_RATE k0 c0 m0 outlen, qsc_kmac QSC_KECCAK_512_RATE k1 c1 m1 outlen, qsc_kmac QSC_KECCAK_512_RATE k2 c2 m2 outlen, qsc_kmac QSC_KECCAK_512_RATE k3 c3 m3 outlen, qsc_kmac QSC_KECCAK_512_RATE k4 c4 m4 outlen, qsc_kmac QSC_KECCAK_512_RATE k5 c5 m5 outlen, qsc_kmac QSC_KECCAK_512_RATE k6 c6 m6 outlen, qsc_kmac QSC_KECCAK_512_RATE k7 c7 m7 outlen]) :=
  ⟨fun k0 k1 k2 k3 outlen h1 h2 h3 =>
     shakex4_eq QSC_KECCAK_128_RATE (by decide) k0 k1 k2 k3 outlen h1 h2 h3,
   fun k0 k1 k2 k3 outlen h1 h2 h3 =>
     shakex4_eq QSC_KECCAK_256_RATE (by decide) k0 k1 k2 k3 outlen h1 h2 h3,
   fun k0 k1 k2 k3 outlen h1 h2 h3 =>
     shakex4_eq QSC_KECCAK_512_RATE (by decide) k0 k1 k2 k3 outlen h1 h2 h3,
   fun k0 k1 k2 k3 k4 k5 k6 k7 outlen h1 h2 h3 h4 h5 h6 h7 =>
     shakex8_eq QSC_KECCAK_128_RATE (by decide) k0 k1 k2 k3 k4 k5 k6 k7 outlen h1 h2 h3 h4 h5 h6 h7,
   fun k0 k1 k2 k3 k4 k5 k6 k7 outlen h1 h2 h3 h4 h5 h6 h7 =>
     shakex8_eq QSC_KECCAK_256_RATE (by decide) k0 k1 k2 k3 k4 k5 k6 k7 outlen h1 h2 h3 h4 h5 h6 h7,
   fun k0 k1 k2 k3 k4 k5 k6 k7 outlen h1 h2 h3 h4 h5 h6 h7 =>
     shakex8_eq QSC_KECCAK_512_RATE (by decide) k0 k1 k2 k3 k4 k5 k6 k7 outlen h1 h2 h3 h4 h5 h6 h7,
   fun k0 k1 k2 k3 c0 c1 c2 c3 m0 m1 m2 m3 outlen hk1 hk2 hk3 hc1 hc2 hc3 hm1 hm2 hm3 =>
     kmacx4_eq QSC_KECCAK_128_RATE (by decide) k0 k1 k2 k3 c0 c1 c2 c3 m0 m1 m2 m3 outlen hk1 hk2 hk3 hc1 hc2 hc3 hm1 hm2 hm3,
   fun k0 k1 k2 k3 c0 c1 c2 c3 m0 m1 m2 m3 outlen hk1 hk2 hk3 hc1 hc2 hc3 hm1 hm2 hm3 =>
     kmacx4_eq QSC_KECCAK_256_RATE (by decide) k0 k1 k2 k3 c0 c1 c2 c3 m0 m1 m2 m3 outlen hk1 hk2 hk3 hc1 hc2 hc3 hm1 hm2 hm3,
   fun k0 k1 k2 k3 c0 c1 c2 c3 m0 m1 m2 m3 outlen hk1 hk2 hk3 hc1 hc2 hc3 hm1 hm2 hm3 =>
     kmacx4_eq QSC_KECCAK_512_RATE (by decide) k0 k1 k2 k3 c0 c1 c2 c3 m0 m1 m2 m3 outlen hk1 hk2 hk3 hc1 hc2 hc3 hm1 hm2 hm3,
   fun k0 k1 k2 k3 k4 k5 k6 k7 c0 c1 c2 c3 c4 c5 c6 c7 m0 m1 m2 m3 m4 m5 m6 m7 outlen hk1 hk2 hk3 hk4 hk5 hk6 hk7 hc1 hc2 hc3 hc4 hc5 hc6 hc7 hm1 hm2 hm3 hm4 hm5 hm6 hm7 =>
     kmacx8_eq QSC_KECCAK_128_RATE (by decide) k0 k1 k2 k3 k4 k5 k6 k7 c0 c1 c2 c3 c4 c5 c6 c7 m0 m1 m2 m3 m4 m5 m6 m7 outlen hk1 hk2 hk3 hk4 hk5 hk6 hk7 hc1 hc2 hc3 hc4 hc5 hc6 hc7 hm1 hm2 hm3 hm4 hm5 hm6 hm7,
   fun k0 k1 k2 k3 k4 k5 k6 k7 c0 c1 c2 c3 c4 c5 c6 c7 m0 m1 m2 m3 m4 m5 m6 m7 outlen hk1 hk2 hk3 hk4 hk5 hk6 hk7 hc1 hc2 hc3 hc4 hc5 hc6 hc7 hm1 hm2 hm3 hm4 hm5 hm6 hm7 =>
     kmacx8_eq QSC_KECCAK_256_RATE (by decide) k0 k1 k2 k3 k4 k5 k6 k7 c0 c1 c2 c3 c4 c5 c6 c7 m0 m1 m2 m3 m4 m5 m6 m7 outlen hk1 hk2 hk3 hk4 hk5 hk6 hk7 hc1 hc2 hc3 hc4 hc5 hc6 hc7 hm1 hm2 hm3 hm4 hm5 hm6 hm7,
   fun k0 k1 k2 k3 k4 k5 k6 k7 c0 c1 c2 c3 c4 c5 c6 c7 m0 m1 m2 m3 m4 m5 m6 m7 outlen hk1 hk2 hk3 hk4 hk5 hk6 hk7 hc1 hc2 hc3 hc4 hc5 hc6 hc7 hm1 hm2 hm3 hm4 hm5 hm6 hm7 =>
     kmacx8_eq QSC_KECCAK_512_RATE (by decide) k0 k1 k2 k3 k4 k5 k6 k7 c0 c1 c2 c3 c4 c5 c6 c7 m0 m1 m2 m3 m4 m5 m6 m7 outlen hk1 hk2 hk3 hk4 hk5 hk6 hk7 hc1 hc2 hc3 hc4 hc5 hc6 hc7 hm1 hm2 hm3 hm4 hm5 hm6 hm7⟩

/-- C7 witness: equal-length concrete inputs for a 4-lane SHAKE-256 call
and a 4-lane KMAC-128 call, whose lock-step outputs equal the sequential
single-lane calls by the theorem. -/
theorem multilane_matches_sequential_witness :
    ([1] : List Nat).length = ([2] : List Nat).length
  ∧ shake256x4 [2] [1] [1] [1] 3
      = [qsc_shake QSC_KECCAK_256_RATE [2] 3, qsc_shake QSC_KECCAK_256_RATE [1] 3,
         qsc_shake QSC_KECCAK_256_RATE [1] 3, qsc_shake QSC_KECCAK_256_RATE [1] 3]
  ∧ kmac128x4 [5] [6] [6] [6] [] [] [] [] [7] [8] [8] [8] 2
      = [qsc_kmac QSC_KECCAK_128_RATE [5] [] [7] 2,
         qsc_kmac QSC_KECCAK_128_RATE [6] [] [8] 2,
         qsc_kmac QSC_KECCAK_128_RATE [6] [] [8] 2,
         qsc_kmac QSC_KECCAK_128_RATE [6] [] [8] 2] :=
  ⟨by decide,
   multilane_matches_sequential.2.1 [2] [1] [1] [1] 3
     (by decide) (by decide) (by decide),
   multilane_matches_sequential.2.2.2.2.2.2.1 [5] [6] [6] [6] [] [] [] []
     [7] [8] [8] [8] 2
     (by decide) (by decide) (by decide) (by decide) (by decide) (by decide)
     (by decide) (by decide) (by decide)⟩
